import Mathlib

/-!
Shallow embedding of the ML core of the hostel-management repository:
`complaint_classifier.py`, `sentiment_analyzer.py`, `occupancy_predictor.py`
and the booking auto-approval fragment of `app.py`.

Modelling conventions:
* Python strings are Lean `String`s; keyword scans work on the list of
  characters after `str.lower()` (modelled by `Char.toLower` on each char).
* Trained scikit-learn models are abstract total functions.  A fitted
  classifier can only ever output one of the classes it was fitted on, so a
  trained complaint model maps text to one of the four training categories
  and a trained sentiment model to one of the three training labels, paired
  with the maximal class probability (a rational in place of a float).
* Every Python `try/except` that redirects to a fallback is embedded by
  making the corresponding Lean function total and giving the exceptional
  branch the fallback value; "never raises" is totality of the embedding.
* The trained/untrained lifecycle is a state machine: a predictor holds
  `model : Option M` and `is_trained : Bool`; the persisted model store is a
  parameter `store : Option M` (`joblib` file present or absent).
-/

namespace MLProj

/-- Embeds `str.lower()` on the character list of a Python string (the keyword
lists in the source are ASCII, for which `Char.toLower` agrees). -/
def lowerStr (s : String) : List Char := s.data.map Char.toLower

/-- Python's substring test `needle in hay` on character lists. -/
def hasInfix (needle : List Char) : List Char → Bool
  | [] => needle.isEmpty
  | c :: rest => needle.isPrefixOf (c :: rest) || hasInfix needle (rest)

/-- Embeds `any(word in text for word in words)` from the source. -/
def containsAny (text : List Char) (words : List String) : Bool :=
  words.any (fun w => hasInfix w.data text)

/-! Embedding of complaint_classifier.py -/

/-- The four classes the complaint pipeline is fitted on
(`generate_training_data`); a fitted classifier only predicts these. -/
inductive TrainedCat where
  | electrical | plumbing | cleaning | furniture
deriving DecidableEq, Repr

/-- The category string the Python dict carries for a model prediction. -/
def TrainedCat.toStr : TrainedCat → String
  | .electrical => "electrical"
  | .plumbing => "plumbing"
  | .cleaning => "cleaning"
  | .furniture => "furniture"

/-- A fitted complaint pipeline: text to (predicted class, max probability). -/
abbrev CModel : Type := String → TrainedCat × ℚ

/-- Result dict of `classify_complaint` / `_fallback_classification`. -/
structure ComplaintResult where
  category : String
  priority : String
  confidence : ℚ
deriving DecidableEq, Repr

/-- Generic predictor state: `self.model` and `self.is_trained`. -/
structure Predictor (M : Type) where
  model : Option M
  is_trained : Bool

/-- Fresh predictor from `__init__`: no model, untrained. -/
def Predictor.init (M : Type) : Predictor M := ⟨none, false⟩

/-- The model that `predict` actually runs, if any: `self.model` when
`is_trained`, else whatever `load_model` finds in the store.  `none` means
the fallback branch is taken (untrained with empty store; a trained state
with no model object would raise in Python and be caught into the same
fallback). -/
def effectiveModel {M : Type} (p : Predictor M) (store : Option M) : Option M :=
  if p.is_trained then p.model else store

/-- Embeds `priority_keywords['high']` of the trained path (line 113). -/
def modelHighWords : List String :=
  ["emergency", "urgent", "danger", "fire", "flood", "electrocution", "gas"]

/-- Embeds `priority_keywords['medium']` of the trained path (line 114). -/
def modelMediumWords : List String :=
  ["leak", "broken", "not working", "issue", "problem"]

/-- Priority loop of the trained path (lines 119–130): start at `'low'`,
scan the high tier, then — only if still low — the medium tier.  (The
`'low'` keyword list on line 115 is never scanned.) -/
def modelPathPriority (textLower : List Char) : String :=
  if containsAny textLower modelHighWords then "high"
  else if containsAny textLower modelMediumWords then "medium"
  else "low"

/-- Embeds `_fallback_classification` category chain (lines 147–156). -/
def fallbackCategory (text : List Char) : String :=
  if containsAny text ["light", "power", "electric", "socket", "fan", "ac"] then
    "electrical"
  else if containsAny text ["water", "tap", "toilet", "drain", "pipe", "bathroom"] then
    "plumbing"
  else if containsAny text ["clean", "dirty", "dust", "garbage"] then
    "cleaning"
  else if containsAny text ["bed", "chair", "table", "furniture", "cupboard"] then
    "furniture"
  else
    "other"

/-- Embeds `_fallback_classification` priority chain (lines 159–164). -/
def fallbackPriority (text : List Char) : String :=
  if containsAny text ["emergency", "urgent", "danger", "fire"] then "high"
  else if containsAny text ["broken", "leak", "not working"] then "medium"
  else "low"

/-- Embeds `_fallback_classification(title, description)` (lines 142–170). -/
def fallback_classification (title description : String) : ComplaintResult :=
  let text := lowerStr (title ++ " " ++ description)
  { category := fallbackCategory text
    priority := fallbackPriority text
    confidence := 7/10 }

/-- Embeds `classify_complaint(title, description)` (lines 99–140): fallback when
untrained with empty store, otherwise model category plus keyword priority. -/
def classify_complaint (p : Predictor CModel) (store : Option CModel)
    (title description : String) : ComplaintResult :=
  match effectiveModel p store with
  | none => fallback_classification title description
  | some m =>
    let text := title ++ " " ++ description
    { category := (m text).1.toStr
      priority := modelPathPriority (lowerStr text)
      confidence := (m text).2 }

/-! Embedding of sentiment_analyzer.py -/

/-- The three classes the sentiment pipeline is fitted on
(`generate_training_data`); a fitted classifier only predicts these. -/
inductive TrainedSent where
  | positive | negative | neutral
deriving DecidableEq, Repr

/-- The label string the Python dict carries for a model prediction. -/
def TrainedSent.toStr : TrainedSent → String
  | .positive => "positive"
  | .negative => "negative"
  | .neutral => "neutral"

/-- A fitted sentiment pipeline: text to (predicted label, max probability). -/
abbrev SModel : Type := String → TrainedSent × ℚ

/-- The TextBlob environment: available with some deterministic polarity
function, absent (`TEXTBLOB_AVAILABLE = False`), or raising on use (its
exception is swallowed into the final neutral fallback). -/
inductive TextBlobEnv where
  | avail (polarity : String → ℚ)
  | unavail
  | failing

/-- Result dict of `analyze_sentiment` / `_analyze_with_textblob`. -/
structure SentimentResult where
  label : String
  score : ℚ
  confidence : ℚ
deriving DecidableEq, Repr

/-- Embeds `_analyze_with_textblob(text)` (lines 122–149): polarity thresholds
`> 0.1` / `< -0.1`, else neutral; neutral final fallback when TextBlob is
absent or raises. -/
def analyzeWithTextblob (tbe : TextBlobEnv) (text : String) : SentimentResult :=
  match tbe with
  | .avail polarity =>
    let s := polarity text
    { label := if s > 1/10 then "positive"
               else if s < -(1/10) then "negative"
               else "neutral"
      score := s
      confidence := 4/5 }
  | .unavail => { label := "neutral", score := 0, confidence := 1/2 }
  | .failing => { label := "neutral", score := 0, confidence := 1/2 }

/-- Embeds `analyze_sentiment(text)` (lines 97–120): fallback when untrained with
empty store; in the trained path the score is the TextBlob polarity when
available (0.0 when absent), and a TextBlob exception there is caught and
redirected to the fallback. -/
def analyze_sentiment (p : Predictor SModel) (store : Option SModel)
    (tbe : TextBlobEnv) (text : String) : SentimentResult :=
  match effectiveModel p store with
  | none => analyzeWithTextblob tbe text
  | some m =>
    match tbe with
    | .avail polarity =>
      { label := (m text).1.toStr, score := polarity text, confidence := (m text).2 }
    | .unavail =>
      { label := (m text).1.toStr, score := 0, confidence := (m text).2 }
    | .failing => analyzeWithTextblob .failing text

/-! Embedding of occupancy_predictor.py

Dates are embedded as days since 1970-01-01 (an integer, so far-past dates
are negative).  `datetime.month` is the proleptic-Gregorian month obtained
by the standard days-to-civil conversion, and `datetime.weekday()` is
Monday-0 (1970-01-01 was a Thursday, weekday 3).  `timedelta(days=i)` is
integer addition. -/

/-- Embeds `datetime.month` of an epoch day: month in 1..12 by the civil-calendar
conversion of days since 1970-01-01. -/
def civilMonth (z : ℤ) : ℤ :=
  let days := z + 719468
  let doe := days.emod 146097
  let yoe := (doe - doe.ediv 1460 + doe.ediv 36524 - doe.ediv 146096).ediv 365
  let doy := doe - (365 * yoe + yoe.ediv 4 - yoe.ediv 100)
  let mp := (5 * doy + 2).ediv 153
  mp + (if mp < 10 then 3 else -9)

/-- Embeds `datetime.weekday()` of an epoch day: Monday is 0; day 0 is a Thursday. -/
def pyWeekday (z : ℤ) : ℤ := (z + 3).emod 7

/-- A fitted occupancy regressor: the four features
`[month, day_of_week, is_weekend, is_academic_month]` to a predicted rate. -/
abbrev OModel : Type := ℤ × ℤ × ℤ × ℤ → ℚ

/-- The feature row built in `predict_occupancy` (lines 108–113). -/
def occupancyFeatures (date : ℤ) : ℤ × ℤ × ℤ × ℤ :=
  (civilMonth date,
   pyWeekday date,
   if pyWeekday date ≥ 5 then 1 else 0,
   if civilMonth date ∈ ([8, 9, 10, 11, 1, 2, 3, 4] : List ℤ) then 1 else 0)

/-- Embeds `_calculate_current_occupancy()` (lines 122–125): constant default. -/
def calculate_current_occupancy : ℚ := 75

/-- Embeds `predict_occupancy(date)` (lines 98–120): fallback constant when
untrained with empty store, otherwise the regressor output clamped by
`max(0, min(100, prediction))`. -/
def predict_occupancy (p : Predictor OModel) (store : Option OModel)
    (date : ℤ) : ℚ :=
  match effectiveModel p store with
  | none => calculate_current_occupancy
  | some m => max 0 (min 100 (m (occupancyFeatures date)))

/-- Python 3 `round(x, 2)`: round half to even at two decimals. -/
def roundHalfEven (x : ℚ) : ℤ :=
  if x - ⌊x⌋ = 1/2 then (if 2 ∣ ⌊x⌋ then ⌊x⌋ else ⌊x⌋ + 1) else round x

/-- Embeds `round(predicted_occupancy, 2)` as a rational with two decimals. -/
def round2 (x : ℚ) : ℚ := (roundHalfEven (x * 100) : ℚ) / 100

/-- One entry of the trend list: the `date` field is the epoch day that
`strftime('%Y-%m-%d')` renders, paired with the rounded rate. -/
structure TrendEntry where
  date : ℤ
  occupancy_rate : ℚ
deriving DecidableEq, Repr

/-- Embeds `get_occupancy_trend(days)` (lines 127–140), with `datetime.now()`
passed in as the epoch day `today`. -/
def get_occupancy_trend (p : Predictor OModel) (store : Option OModel)
    (today : ℤ) (days : ℕ) : List TrendEntry :=
  (List.range days).map (fun i : ℕ =>
    { date := today + (i : ℤ)
      occupancy_rate := round2 (predict_occupancy p store (today + (i : ℤ))) })

/-! Embedding of the predictor lifecycle (shared by all three predictors).

`train_model`, `load_model` and the predict entry points mutate
`self.model` / `self.is_trained` the same way in all three classes; the
mutations are embedded as a step function on `Predictor M`.  A failing
`train_model` is split by where the exception lands: before the
`self.model = ...` assignment (state untouched) or between it and
`self.is_trained = True` (model replaced by the unfitted/partial pipeline,
flag untouched).  `load_model` either finds a stored model (sets it and the
flag) or leaves the state alone; the predict entry points call `load_model`
exactly when the flag is down. -/

inductive Op (M : Type) where
  | trainOk (m : M)
  | trainErrBefore
  | trainErrAfter (m : M)
  | load
  | predict

/-- State mutation of one operation, given the current store content. -/
def Op.step {M : Type} (store : Option M) : Op M → Predictor M → Predictor M
  | .trainOk m, _ => ⟨some m, true⟩
  | .trainErrBefore, p => p
  | .trainErrAfter m, p => ⟨some m, p.is_trained⟩
  | .load, p =>
    match store with
    | some m => ⟨some m, true⟩
    | none => p
  | .predict, p =>
    if p.is_trained then p
    else
      match store with
      | some m => ⟨some m, true⟩
      | none => p

/-- Running a sequence of operations from a state. -/
def runOps {M : Type} (store : Option M) (ops : List (Op M))
    (p : Predictor M) : Predictor M :=
  ops.foldl (fun q op => op.step store q) p

/-- The operations whose step can raise the `is_trained` flag: a successful
training, or an operation that performs a successful store load (an explicit
`load_model` call, or a predict entry reaching its internal load). -/
def Op.isSuccessfulTrain {M : Type} : Op M → Prop
  | .trainOk _ => True
  | _ => False

/-- Operations that attempt a store load when the predictor is untrained. -/
def Op.attemptsLoad {M : Type} : Op M → Prop
  | .load => True
  | .predict => True
  | _ => False

/-! Embedding of the app.py book_room decision fragment (lines 283 to 297). -/

/-- Outcome of the booking workflow on a freshly created pending booking:
final booking status and final `room.is_available`. -/
def book_room_step (approved : Bool) (confidence : ℚ)
    (roomAvailable : Bool) : String × Bool :=
  if approved = true ∧ confidence > 7/10 then ("confirmed", false)
  else ("pending", roomAvailable)

/-! Concrete model instances used to build trained states in
counterexamples and witnesses. -/

/-- A concrete fitted complaint pipeline (constant prediction); any fitted
pipeline is some function of this type. -/
def constCModel : CModel := fun _ => (TrainedCat.electrical, 9/10)

/-- The trained complaint-classifier state holding `constCModel`. -/
def trainedC : Predictor CModel := ⟨some constCModel, true⟩

/-- A concrete fitted occupancy regressor. -/
def constOModel : OModel := fun f => (f.1 : ℚ) + 50

/-! Auxiliary lemmas about the keyword scans. -/

lemma mem_of_hasInfix {n : List Char} :
    ∀ (hay : List Char), hasInfix n hay = true → ∀ c ∈ n, c ∈ hay := by
  intro hay
  induction hay with
  | nil =>
    intro h c hc
    simp only [hasInfix, List.isEmpty_iff] at h
    subst h
    simp at hc
  | cons a rest ih =>
    intro h c hc
    rw [hasInfix, Bool.or_eq_true] at h
    rcases h with hpre | hrec
    · exact (List.isPrefixOf_iff_prefix.mp hpre).subset hc
    · exact List.mem_cons_of_mem a (ih hrec c hc)

lemma toLower_isWhitespace {c : Char} (h : c.isWhitespace = true) :
    c.toLower.isWhitespace = true := by
  simp only [Char.isWhitespace, Bool.or_eq_true, decide_eq_true_eq] at h
  rcases h with ((rfl | rfl) | rfl) | rfl <;> decide

lemma containsAny_lowerStr_eq_false {s : String}
    (hs : s.data.all Char.isWhitespace = true) {ws : List String}
    (hws : ws.all (fun w => w.data.any (fun c => !c.isWhitespace)) = true) :
    containsAny (lowerStr s) ws = false := by
  rw [containsAny, List.any_eq_false]
  intro w hw
  simp only [Bool.not_eq_true]
  by_contra hcon
  rw [Bool.not_eq_false] at hcon
  rw [List.all_eq_true] at hws
  have hwc := hws w hw
  rw [List.any_eq_true] at hwc
  obtain ⟨c, hc, hcws⟩ := hwc
  have hmem := mem_of_hasInfix _ hcon c hc
  rw [lowerStr, List.mem_map] at hmem
  obtain ⟨c0, hc0, rfl⟩ := hmem
  rw [List.all_eq_true] at hs
  have hlow := toLower_isWhitespace (hs c0 hc0)
  simp [hlow] at hcws

lemma fallbackCategory_mem (t : List Char) :
    fallbackCategory t ∈
      (["electrical", "plumbing", "cleaning", "furniture", "other"] : List String) := by
  rw [fallbackCategory]
  split_ifs <;> simp

lemma fallbackPriority_mem (t : List Char) :
    fallbackPriority t ∈ (["low", "medium", "high"] : List String) := by
  rw [fallbackPriority]
  split_ifs <;> simp

lemma modelPathPriority_mem (t : List Char) :
    modelPathPriority t ∈ (["low", "medium", "high"] : List String) := by
  rw [modelPathPriority]
  split_ifs <;> simp

lemma trainedCat_toStr_mem (c : TrainedCat) :
    c.toStr ∈ (["electrical", "plumbing", "cleaning", "furniture"] : List String) := by
  cases c <;> simp [TrainedCat.toStr]

lemma trainedSent_toStr_mem (c : TrainedSent) :
    c.toStr ∈ (["positive", "negative", "neutral"] : List String) := by
  cases c <;> simp [TrainedSent.toStr]

/-- The keywords the trained-path priority tiers have and the fallback
tiers lack: three extra high-tier words and two extra medium-tier words. -/
def extraPriorityWords : List String :=
  ["flood", "electrocution", "gas", "issue", "problem"]

lemma modelPathPriority_eq_fallback (t : List Char)
    (h : containsAny t extraPriorityWords = false) :
    modelPathPriority t = fallbackPriority t := by
  simp only [containsAny, extraPriorityWords, List.any_cons, List.any_nil,
    Bool.or_eq_false_iff] at h
  obtain ⟨h1, h2, h3, h4, h5, -⟩ := h
  rw [modelPathPriority, fallbackPriority]
  simp only [containsAny, modelHighWords, modelMediumWords, List.any_cons,
    List.any_nil, h1, h2, h3, h4, h5, Bool.or_false]
  cases hl : hasInfix ['l', 'e', 'a', 'k'] t <;>
    cases hb : hasInfix ['b', 'r', 'o', 'k', 'e', 'n'] t <;> simp [hl, hb]

/-! Claim theorems. -/

/-- C1, counterexample: on the complaint "wifi" / "not working" the code
derives priority "medium", not "high" — "wifi" occurs in no priority tier
(neither in the trained path's tiers nor in the fallback tiers), while
"not working" matches the medium tier; this holds in the untrained state
and in a trained state alike. -/
theorem C1_counterexample :
    (classify_complaint (Predictor.init CModel) none "wifi" "not working").priority
        = "medium"
    ∧ (classify_complaint (Predictor.init CModel) none "wifi" "not working").priority
        ≠ "high"
    ∧ (classify_complaint trainedC none "wifi" "not working").priority = "medium" :=
  ⟨by decide, by decide, by decide⟩

/-- C1, amended: for the complaint input text "wifi not working" (combined
title+description) the priority derivation returns "medium" in every model
state: the tiers are checked in the fixed order high, then medium, then
low and the first tier containing a matching keyword wins, but "wifi"
occurs in no tier, so the match is "not working" in the medium tier. -/
theorem C1_wifi_priority_medium (p : Predictor CModel) (store : Option CModel) :
    (classify_complaint p store "wifi" "not working").priority = "medium" := by
  rcases h : effectiveModel p store with _ | m <;>
    simp only [classify_complaint, h] <;> decide

/-- C2, counterexample: priority is not a function of the input text alone
across model states — the trained path's high tier contains "gas" while the
fallback high tier does not, so running the classifier on ("gas", "smell")
trained yields "high" but untrained (fallback) yields "low". -/
theorem C2_counterexample :
    (classify_complaint trainedC none "gas" "smell").priority = "high"
    ∧ (classify_complaint (Predictor.init CModel) none "gas" "smell").priority
        = "low" :=
  ⟨by decide, by decide⟩

/-- C2, amended: within the trained state the priority is a function of the
combined title+description text only and is never influenced by the
predicted category or by which fitted model produced it (any two trained
models give equal priorities); but the trained path and the fallback use
different keyword tiers (the trained path adds "flood", "electrocution",
"gas" to the high tier and "issue", "problem" to the medium tier), so the
trained-versus-untrained two-run equality can fail; it does hold whenever
the text contains none of those five extra keywords. -/
theorem C2_priority_text_only (m₁ m₂ : CModel) (s₁ s₂ : Option CModel)
    (title description : String) :
    (classify_complaint ⟨some m₁, true⟩ s₁ title description).priority
        = (classify_complaint ⟨some m₂, true⟩ s₂ title description).priority
    ∧ (containsAny (lowerStr (title ++ " " ++ description)) extraPriorityWords
          = false →
        (classify_complaint ⟨some m₁, true⟩ s₁ title description).priority
          = (classify_complaint (Predictor.init CModel) none title description).priority) := by
  constructor
  · rfl
  · intro h
    show modelPathPriority (lowerStr (title ++ " " ++ description))
        = fallbackPriority (lowerStr (title ++ " " ++ description))
    exact modelPathPriority_eq_fallback _ h

/-- C2, witness: on the extra-keyword-free input ("tap", "broken") the
trained and untrained runs agree on the priority. -/
theorem C2_witness :
    (classify_complaint trainedC none "tap" "broken").priority
      = (classify_complaint (Predictor.init CModel) none "tap" "broken").priority :=
  (C2_priority_text_only constCModel constCModel none none "tap" "broken").2
    (by decide)

/-- C3: prediction is total (every Python exception path is embedded as the
fallback branch, so no input reaches the caller as an exception) and the
returned labels are always among the enumerated values: complaint category
in electrical/plumbing/cleaning/furniture/other, complaint priority in
low/medium/high, sentiment label in positive/negative/neutral — in every
model state, for every input text. -/
theorem C3_predict_total_enumerated (p : Predictor CModel) (s : Option CModel)
    (title description : String) (ps : Predictor SModel) (ss : Option SModel)
    (tbe : TextBlobEnv) (text : String) :
    (classify_complaint p s title description).category
        ∈ (["electrical", "plumbing", "cleaning", "furniture", "other"] : List String)
    ∧ (classify_complaint p s title description).priority
        ∈ (["low", "medium", "high"] : List String)
    ∧ (analyze_sentiment ps ss tbe text).label
        ∈ (["positive", "negative", "neutral"] : List String) := by
  refine ⟨?_, ?_, ?_⟩
  · rcases h : effectiveModel p s with _ | m <;> simp only [classify_complaint, h]
    · exact fallbackCategory_mem _
    · have h4 := trainedCat_toStr_mem (m (title ++ " " ++ description)).1
      simp only [List.mem_cons, List.mem_singleton] at h4 ⊢
      tauto
  · rcases h : effectiveModel p s with _ | m <;> simp only [classify_complaint, h]
    · exact fallbackPriority_mem _
    · exact modelPathPriority_mem _
  · rcases h : effectiveModel ps ss with _ | m <;> simp only [analyze_sentiment, h]
    · cases tbe with
      | avail polarity =>
        simp only [analyzeWithTextblob]
        split_ifs <;> simp
      | unavail => simp [analyzeWithTextblob]
      | failing => simp [analyzeWithTextblob]
    · cases tbe with
      | avail polarity => exact trainedSent_toStr_mem _
      | unavail => exact trainedSent_toStr_mem _
      | failing => simp [analyzeWithTextblob]

/-- C4: for every date (the epoch-day embedding covers far-past dates as
negative integers and far-future dates as large ones) and every model
state, `predict_occupancy` lies in the closed interval [0, 100]: the
trained path clamps the regressor output with max/min and the untrained
path returns the constant 75.0. -/
theorem C4_occupancy_in_range (p : Predictor OModel) (s : Option OModel)
    (d : ℤ) :
    0 ≤ predict_occupancy p s d ∧ predict_occupancy p s d ≤ 100 := by
  rcases h : effectiveModel p s with _ | m <;> simp only [predict_occupancy, h]
  · constructor <;> norm_num [calculate_current_occupancy]
  · exact ⟨le_max_left 0 _, max_le (by norm_num) (min_le_left _ _)⟩

lemma trend_dates (p : Predictor OModel) (s : Option OModel) (today : ℤ)
    (n : ℕ) :
    (get_occupancy_trend p s today n).map TrendEntry.date
      = (List.range n).map (fun i : ℕ => today + (i : ℤ)) := by
  rw [get_occupancy_trend, List.map_map]
  rfl

lemma chain_consecutive (today : ℤ) (n : ℕ) :
    List.Chain' (fun a b => b = a + 1)
      ((List.range n).map (fun i : ℕ => today + (i : ℤ))) := by
  rw [List.chain'_iff_get]
  intro i hi
  simp only [List.get_eq_getElem, List.getElem_map, List.getElem_range]
  omega

/-- C5: the occupancy trend returns exactly `n` entries; the sequence of
their dates starts at today's date and increases by exactly one day per
entry; and each entry carries the predicted occupancy for its date rounded
to two decimal places. -/
theorem C5_trend_shape (p : Predictor OModel) (s : Option OModel) (today : ℤ)
    (n : ℕ) :
    (get_occupancy_trend p s today n).length = n
    ∧ ((get_occupancy_trend p s today n).map TrendEntry.date).head?
        = (if n = 0 then none else some today)
    ∧ List.Chain' (fun a b => b = a + 1)
        ((get_occupancy_trend p s today n).map TrendEntry.date)
    ∧ ∀ e ∈ get_occupancy_trend p s today n,
        e.occupancy_rate = round2 (predict_occupancy p s e.date) := by
  refine ⟨?_, ?_, ?_, ?_⟩
  · rw [get_occupancy_trend, List.length_map, List.length_range]
  · rw [trend_dates]
    cases n with
    | zero => simp
    | succ k => simp [List.range_succ_eq_map]
  · rw [trend_dates]
    exact chain_consecutive today n
  · intro e he
    simp only [get_occupancy_trend, List.mem_map] at he
    obtain ⟨i, _, rfl⟩ := he
    rfl

lemma round2_75 : round2 (75 : ℚ) = 75 := by
  have h : ((75 : ℚ) * 100) = ((7500 : ℤ) : ℚ) := by norm_num
  rw [round2, roundHalfEven, h, Int.floor_intCast]
  norm_num

/-- C5, witness: a two-entry trend from day 0 in the untrained state has
length two, and its day-1 entry carries the rounded fallback rate 75. -/
theorem C5_witness :
    (get_occupancy_trend (Predictor.init OModel) none 0 2).length = 2
    ∧ (TrendEntry.mk 1 75).occupancy_rate
        = round2 (predict_occupancy (Predictor.init OModel) none
            (TrendEntry.mk 1 75).date) :=
  ⟨(C5_trend_shape (Predictor.init OModel) none 0 2).1,
   (C5_trend_shape (Predictor.init OModel) none 0 2).2.2.2 ⟨1, 75⟩ (by
      have hlist : get_occupancy_trend (Predictor.init OModel) none 0 2
          = [⟨0, 75⟩, ⟨1, 75⟩] := by
        rw [get_occupancy_trend]
        norm_num [List.range_succ, predict_occupancy, effectiveModel,
          Predictor.init, calculate_current_occupancy, round2_75]
      rw [hlist]
      simp)⟩

/-- C6: a newly created pending booking is auto-confirmed with its room
marked unavailable if and only if the approval prediction is approved with
confidence strictly greater than 0.7; at confidence exactly 0.70 with
approved true the booking stays pending (and the room keeps its prior
availability). -/
theorem C6_auto_approve_iff (approved : Bool) (confidence : ℚ) (avail : Bool) :
    (book_room_step approved confidence avail = ("confirmed", false)
        ↔ (approved = true ∧ confidence > 7/10))
    ∧ book_room_step true (7/10) avail = ("pending", avail) := by
  constructor
  · constructor
    · intro he
      by_contra hc
      rw [book_room_step, if_neg hc] at he
      have hfst := congrArg Prod.fst he
      simp at hfst
    · intro hc
      rw [book_room_step, if_pos hc]
  · have h7 : ¬(true = true ∧ (7 : ℚ)/10 > 7/10) := by norm_num
    rw [book_room_step, if_neg h7]

/-- C6, witness: confidence 0.71 confirms and frees the room flag,
confidence 0.70 leaves the booking pending. -/
theorem C6_witness :
    book_room_step true (71/100) true = ("confirmed", false)
    ∧ book_room_step true (7/10) true = ("pending", true) :=
  ⟨(C6_auto_approve_iff true (71/100) true).1.mpr ⟨rfl, by norm_num⟩,
   (C6_auto_approve_iff true (7/10) true).2⟩

/-- C7: the trained/untrained state is a one-way invariant: a predictor
starts untrained; every operation preserves trainedness; no sequence of
train, load or predict operations moves a trained predictor back to
untrained; and the only single steps that move an untrained predictor to
trained are a successful training or an operation that performs a
successful store load (an explicit load, or a predict entry's internal
load). -/
theorem C7_trained_one_way (M : Type) (store : Option M) (op : Op M)
    (p : Predictor M) (ops : List (Op M)) :
    (Predictor.init M).is_trained = false
    ∧ (p.is_trained = true → (op.step store p).is_trained = true)
    ∧ (p.is_trained = true → (runOps store ops p).is_trained = true)
    ∧ (p.is_trained = false → (op.step store p).is_trained = true →
        op.isSuccessfulTrain ∨ ((∃ m, store = some m) ∧ op.attemptsLoad)) := by
  have mono : ∀ (q : Predictor M) (o : Op M), q.is_trained = true →
      (o.step store q).is_trained = true := by
    intro q o hq
    cases o with
    | trainOk m => rfl
    | trainErrBefore => exact hq
    | trainErrAfter m => exact hq
    | load =>
      cases store with
      | none => exact hq
      | some m => rfl
    | predict => simp [Op.step, hq]
  have seq : ∀ (l : List (Op M)) (q : Predictor M), q.is_trained = true →
      (runOps store l q).is_trained = true := by
    intro l
    induction l with
    | nil => intro q hq; exact hq
    | cons o rest ih => intro q hq; exact ih _ (mono q o hq)
  refine ⟨rfl, mono p op, seq ops p, ?_⟩
  intro hp hstep
  cases op with
  | trainOk m => exact Or.inl trivial
  | trainErrBefore =>
    rw [show ((Op.trainErrBefore : Op M).step store p) = p from rfl, hp] at hstep
    exact absurd hstep (by decide)
  | trainErrAfter m =>
    rw [show ((Op.trainErrAfter m).step store p).is_trained = p.is_trained from rfl,
      hp] at hstep
    exact absurd hstep (by decide)
  | load =>
    cases store with
    | some m => exact Or.inr ⟨⟨m, rfl⟩, trivial⟩
    | none =>
      rw [show ((Op.load : Op M).step none p) = p from rfl, hp] at hstep
      exact absurd hstep (by decide)
  | predict =>
    cases store with
    | some m => exact Or.inr ⟨⟨m, rfl⟩, trivial⟩
    | none =>
      simp only [Op.step, hp] at hstep
      exact absurd hstep (by simp [hp])

/-- C7, witness: a failing training step on a trained predictor leaves it
trained. -/
theorem C7_witness :
    ((Op.trainErrBefore : Op Unit).step none ⟨some (), true⟩).is_trained = true :=
  (C7_trained_one_way Unit none Op.trainErrBefore ⟨some (), true⟩ []).2.1 rfl

/-- C8: training never propagates an exception (the error steps are total
state transformations) and is atomic with respect to the trained/untrained
flag: a training error — whether it lands before or after the
`self.model` assignment — leaves `is_trained` unchanged, and when the
predictor was untrained (and the store is empty) a subsequent prediction
takes the rule-based fallback path. -/
theorem C8_train_error_atomic (store : Option CModel) (p : Predictor CModel)
    (m : CModel) (title description : String) :
    ((Op.trainErrBefore : Op CModel).step store p).is_trained = p.is_trained
    ∧ ((Op.trainErrAfter m).step store p).is_trained = p.is_trained
    ∧ (p.is_trained = false →
        classify_complaint ((Op.trainErrBefore : Op CModel).step none p) none
            title description
          = fallback_classification title description
        ∧ classify_complaint ((Op.trainErrAfter m).step none p) none
            title description
          = fallback_classification title description) := by
  refine ⟨rfl, rfl, fun hp => ⟨?_, ?_⟩⟩
  · simp [Op.step, classify_complaint, effectiveModel, hp]
  · simp [Op.step, classify_complaint, effectiveModel, hp]

/-- C8, witness: a fresh predictor stays untrained through a failing
training and its next prediction is the fallback one. -/
theorem C8_witness :
    classify_complaint
        ((Op.trainErrAfter constCModel).step none (Predictor.init CModel))
        none "a" "b"
      = fallback_classification "a" "b" :=
  ((C8_train_error_atomic none (Predictor.init CModel) constCModel "a" "b").2.2
    rfl).2

/-- C9, counterexample: in a trained model state — reachable from the fresh
state by one successful training — the complaint classifier run on empty
title and description returns the model's class (here "electrical"), not
"other": a fitted pipeline can only emit its four training classes, so the
claimed "other in every model state" fails in every trained state. -/
theorem C9_counterexample :
    runOps none [Op.trainOk constCModel] (Predictor.init CModel) = trainedC
    ∧ (classify_complaint trainedC none "" "").category = "electrical"
    ∧ (classify_complaint trainedC none "" "").category ≠ "other" :=
  ⟨rfl, by decide, by decide⟩

/-- C9, amended: empty or whitespace-only input never raises (the embedding
is total); in the untrained/fallback state the complaint classifier returns
category "other" with priority "low" and the sentiment analyzer returns
"neutral" (whether TextBlob reports zero polarity, is unavailable, or
fails); in a trained state the priority is still "low" but the category is
the model's prediction on the zero-signal text, one of the four training
classes and hence never "other". -/
theorem C9_whitespace_residual (title description text : String)
    (hc : (title ++ " " ++ description).data.all Char.isWhitespace = true)
    (ht : text.data.all Char.isWhitespace = true) :
    ((classify_complaint (Predictor.init CModel) none title description).category
        = "other"
      ∧ (classify_complaint (Predictor.init CModel) none title description).priority
        = "low")
    ∧ (∀ (m : CModel) (s : Option CModel),
        (classify_complaint ⟨some m, true⟩ s title description).priority = "low"
        ∧ (classify_complaint ⟨some m, true⟩ s title description).category
            ∈ (["electrical", "plumbing", "cleaning", "furniture"] : List String))
    ∧ (∀ polarity : String → ℚ, polarity text = 0 →
        (analyze_sentiment (Predictor.init SModel) none
          (.avail polarity) text).label = "neutral")
    ∧ (analyze_sentiment (Predictor.init SModel) none .unavail text).label
        = "neutral"
    ∧ (analyze_sentiment (Predictor.init SModel) none .failing text).label
        = "neutral" := by
  have hcat : ∀ ws : List String,
      ws.all (fun w => w.data.any (fun c => !c.isWhitespace)) = true →
      containsAny (lowerStr (title ++ " " ++ description)) ws = false :=
    fun _ hws => containsAny_lowerStr_eq_false hc hws
  have h1 := hcat ["light", "power", "electric", "socket", "fan", "ac"] (by decide)
  have h2 := hcat ["water", "tap", "toilet", "drain", "pipe", "bathroom"] (by decide)
  have h3 := hcat ["clean", "dirty", "dust", "garbage"] (by decide)
  have h4 := hcat ["bed", "chair", "table", "furniture", "cupboard"] (by decide)
  have h5 := hcat ["emergency", "urgent", "danger", "fire"] (by decide)
  have h6 := hcat ["broken", "leak", "not working"] (by decide)
  have h7 := hcat modelHighWords (by decide)
  have h8 := hcat modelMediumWords (by decide)
  refine ⟨⟨?_, ?_⟩, fun m s => ⟨?_, ?_⟩, fun polarity hpol => ?_, rfl, rfl⟩
  · show fallbackCategory (lowerStr (title ++ " " ++ description)) = "other"
    rw [fallbackCategory]
    simp [h1, h2, h3, h4]
  · show fallbackPriority (lowerStr (title ++ " " ++ description)) = "low"
    rw [fallbackPriority]
    simp [h5, h6]
  · show modelPathPriority (lowerStr (title ++ " " ++ description)) = "low"
    rw [modelPathPriority]
    simp [h7, h8]
  · exact trainedCat_toStr_mem _
  · show (analyzeWithTextblob (.avail polarity) text).label = "neutral"
    rw [analyzeWithTextblob]
    norm_num [hpol]

/-- C9, witness: on empty title/description and a one-space feedback text
with zero TextBlob polarity, the untrained classifiers land in the residual
buckets. -/
theorem C9_witness :
    (classify_complaint (Predictor.init CModel) none "" "").category = "other"
    ∧ (analyze_sentiment (Predictor.init SModel) none
        (.avail fun _ => 0) " ").label = "neutral"
    ∧ (analyze_sentiment (Predictor.init SModel) none .unavail " ").label
        = "neutral" :=
  ⟨((C9_whitespace_residual "" "" " " (by decide) (by decide)).1).1,
   (C9_whitespace_residual "" "" " " (by decide) (by decide)).2.2.1
     (fun _ => 0) rfl,
   (C9_whitespace_residual "" "" " " (by decide) (by decide)).2.2.2.1⟩

/-- C10: in any fixed predictor state, predicted occupancy is determined by
the calendar month and the weekday of the input date alone: the two
remaining features are derived from them (weekend flag from the weekday,
academic-month flag from the month), and the untrained fallback is a
constant. -/
theorem C10_month_weekday_determine (p : Predictor OModel) (s : Option OModel)
    (d₁ d₂ : ℤ) (hm : civilMonth d₁ = civilMonth d₂)
    (hw : pyWeekday d₁ = pyWeekday d₂) :
    predict_occupancy p s d₁ = predict_occupancy p s d₂ := by
  have hf : occupancyFeatures d₁ = occupancyFeatures d₂ := by
    rw [occupancyFeatures, occupancyFeatures, hm, hw]
  rcases h : effectiveModel p s with _ | m <;>
    simp only [predict_occupancy, h, hf]

/-- C10, witness: 1970-01-01 (day 0) and 1970-01-29 (day 28) share month
January and weekday Thursday, and a trained regressor state predicts the
same occupancy for both. -/
theorem C10_witness :
    predict_occupancy ⟨some constOModel, true⟩ none 0
      = predict_occupancy ⟨some constOModel, true⟩ none 28 :=
  C10_month_weekday_determine ⟨some constOModel, true⟩ none 0 28
    (by decide) (by decide)

end MLProj
